import Mathlib

/-!
# Verification of the sample-report extraction and aggregation pipeline

Shallow embedding of the Python pipeline in `utils.py` and `main.py`:
JSON report values are modelled by the inductive type `JVal`, Python's
`dict.get(key, default)` by `getD`, Python truthiness by `truthy`, and the
extraction functions `process_microorganisms` / `process_amr_markers` and the
driver logic in `main` by executable Lean functions.  Numbers are modelled as
rationals (the exact float rounding mode of `round(x, 2)` is irrelevant to
every property proved here; Mathlib's `round` stands in for it).  Python
exceptions are modelled by `Except String`; the per-sample `try/except`
boundaries turn an error into `none`, exactly as the source logs and returns
`None`.
-/

/-- A JSON value, as produced by `json.load`. -/
inductive JVal where
  | null : JVal
  | bool : Bool → JVal
  | num : ℚ → JVal
  | str : String → JVal
  | arr : List JVal → JVal
  | obj : List (String × JVal) → JVal

/-- Python truthiness (`if not x`, `x or y`): `None`, `False`, `0`, `""`,
`[]` and `{}` are falsy, everything else truthy. -/
def truthy : JVal → Bool
  | .null => false
  | .bool b => b
  | .num q => q ≠ 0
  | .str s => s ≠ ""
  | .arr xs => !xs.isEmpty
  | .obj fs => !fs.isEmpty

/-- Python `x.get(key, default)`: on a dict, the stored value if the key is
present (even when that value is `None`), otherwise the default; on any
non-dict value, `.get` raises `AttributeError`. -/
def getD (v : JVal) (key : String) (d : JVal) : Except String JVal :=
  match v with
  | .obj fs => .ok ((fs.lookup key).getD d)
  | _ => .error "AttributeError: .get on a non-dict"

/-- Python `round(x, 2)` modelled on rationals: defined on numbers (and bools,
which Python treats as integers), raises `TypeError` on `None`, strings,
lists and dicts.  The source's exact half-rounding mode does not matter for
any property proved below. -/
def jround2 : JVal → Except String ℚ
  | .num q => .ok ((round (q * 100) : ℤ) / 100)
  | .bool b => .ok (if b then 1 else 0)
  | _ => .error "TypeError: round on a non-number"

/-- Python `x > 5` for a JSON value: numbers compare numerically, bools as
0/1; comparing `None`, strings, lists or dicts with an int raises. -/
def jgt5 : JVal → Except String Bool
  | .num q => .ok (decide (5 < q))
  | .bool b => .ok (decide ((5 : ℚ) < if b then 1 else 0))
  | _ => .error "TypeError: comparison with int"

/-- Numeric view of a JSON value, as pandas arithmetic sees it: numbers are
themselves, bools are 0/1, everything else is non-numeric. -/
def jvalToNum : JVal → Option ℚ
  | .num q => some q
  | .bool b => some (if b then 1 else 0)
  | _ => none

/-- `item[0]`: first element of a list (or first character of a string);
raises `IndexError` on an empty list or string and `TypeError`/`KeyError`
on other values. -/
def jindex0 : JVal → Except String JVal
  | .arr (x :: _) => .ok x
  | .arr [] => .error "IndexError: list index out of range"
  | .str s => match s.toList with
    | c :: _ => .ok (.str (String.mk [c]))
    | [] => .error "IndexError: string index out of range"
  | _ => .error "TypeError: not subscriptable"

/-- `item.get('explifyInterpretation', {}).get('predictedPresent', False)`,
the predicted-present extraction shared by both extractors
(`utils.py` lines 77 and 125). -/
def getPredictedPresent (item : JVal) : Except String JVal := do
  let interp ← getD item "explifyInterpretation" (.obj [])
  getD interp "predictedPresent" (.bool false)

/-- Map a fallible extraction over a list of entries; the first raised
exception aborts the whole list (the per-entry loop bodies in
`process_microorganisms` / `process_amr_markers` run inside one `try`). -/
def mapOrErr (f : α → Except String β) : List α → Except String (List β)
  | [] => .ok []
  | x :: xs =>
    match f x, mapOrErr f xs with
    | .ok y, .ok ys => .ok (y :: ys)
    | .error e, _ => .error e
    | _, .error e => .error e

/-- Element-wise fallible map, modelling a vectorised pandas operation that
raises if any element is of the wrong type. -/
def mapOrNone (f : α → Option β) : List α → Option (List β)
  | [] => some []
  | x :: xs =>
    match f x, mapOrNone f xs with
    | some y, some ys => some (y :: ys)
    | _, _ => none

/-- One row of the Microorganisms table (`utils.py` lines 79–90).
`class` is a Lean keyword, so that column is called `className` here. -/
structure MicroorganismRecord where
  sample : String
  name : JVal
  alignedReadCount : JVal
  ani : ℚ
  rpkm : ℚ
  className : JVal
  phenotypicGroup : JVal
  predictedPresent : JVal
  presence : JVal

/-- The loop body of `process_microorganisms` (`utils.py` lines 73–90):
extract and default each field of one microorganism entry, round `ani` and
`rpkm`, and compute `Presence = predicted_present or (aligned_count > 5)`
(Python `or`: the first operand if truthy, otherwise the second). -/
def processItemMO (sample_i : String) (item : JVal) :
    Except String MicroorganismRecord := do
  let ani ← getD item "ani" (.num 0)
  let rpkm ← getD item "rpkm" (.num 0)
  let aligned_count ← getD item "alignedReadCount" (.num 0)
  let predicted_present ← getPredictedPresent item
  let name ← getD item "name" .null
  let aniR ← jround2 ani
  let rpkmR ← jround2 rpkm
  let cls ← getD item "class" .null
  let phen ← getD item "phenotypicGroup" .null
  let gt ← jgt5 aligned_count
  let presence := if truthy predicted_present then predicted_present else .bool gt
  .ok { sample := "sample" ++ sample_i
        name := name
        alignedReadCount := aligned_count
        ani := aniR
        rpkm := rpkmR
        className := cls
        phenotypicGroup := phen
        predictedPresent := predicted_present
        presence := presence }

/-- The body of `process_microorganisms` after a successful load
(`utils.py` lines 66–96): locate `targetReport.microorganisms`; if falsy,
log a warning and return `None`; otherwise build one record per entry, any
exception being caught at the sample boundary and converted to `None`. -/
def processReportMO (sample_i : String) (report : JVal) :
    Option (List MicroorganismRecord) :=
  let res : Except String (Option (List MicroorganismRecord)) := do
    let tr ← getD report "targetReport" (.obj [])
    let trmo ← getD tr "microorganisms" (.arr [])
    if truthy trmo then do
      -- iterating a non-list truthy value either raises directly or yields
      -- items on which `.get` raises; both end in the same `except` branch
      match trmo with
      | .arr items => do
        let rows ← mapOrErr (processItemMO sample_i) items
        pure (some rows)
      | _ => .error "TypeError: not iterable"
    else
      pure none
  match res with
  | .ok o => o
  | .error _ => none

/-- One row of the amrMarkers table (`utils.py` lines 117–126). -/
structure AmrMarkerRecord where
  sampleID : String
  geneName : JVal
  className : JVal
  geneFamily : JVal
  coverage : ℚ
  medianDepth : JVal
  associatedMicroorganisms : JVal
  predictedPresent : JVal

/-- The loop body of `process_amr_markers` (`utils.py` lines 111–126):
`associated_mo = item.get('associatedMicroorganisms', {}).get('all', [None])[0]`
is evaluated before the row dict (so before `round(coverage, 2)`). -/
def processItemAMR (sample_i : String) (item : JVal) :
    Except String AmrMarkerRecord := do
  let coverage ← getD item "coverage" (.num 0)
  let assoc ← getD item "associatedMicroorganisms" (.obj [])
  let allList ← getD assoc "all" (.arr [.null])
  let associated_mo ← jindex0 allList
  let name ← getD item "name" .null
  let cls ← getD item "class" .null
  let geneFamily ← getD item "geneFamily" .null
  let covR ← jround2 coverage
  let medianDepth ← getD item "medianDepth" .null
  let predicted_present ← getPredictedPresent item
  .ok { sampleID := "sample" ++ sample_i
        geneName := name
        className := cls
        geneFamily := geneFamily
        coverage := covR
        medianDepth := medianDepth
        associatedMicroorganisms := associated_mo
        predictedPresent := predicted_present }

/-- The body of `process_amr_markers` after a successful load
(`utils.py` lines 104–132), symmetric to `processReportMO`. -/
def processReportAMR (sample_i : String) (report : JVal) :
    Option (List AmrMarkerRecord) :=
  let res : Except String (Option (List AmrMarkerRecord)) := do
    let tr ← getD report "targetReport" (.obj [])
    let tramr ← getD tr "amrMarkers" (.arr [])
    if truthy tramr then do
      match tramr with
      | .arr items => do
        let rows ← mapOrErr (processItemAMR sample_i) items
        pure (some rows)
      | _ => .error "TypeError: not iterable"
    else
      pure none
  match res with
  | .ok o => o
  | .error _ => none

/-! ## Sample discovery and report loading (`utils.py` lines 15–54) -/

/-- Longest common leading character run of two strings.  `os.path.commonprefix`
compares the lexicographic min and max of the list character by character,
which yields exactly the longest common prefix of all entries; folding the
two-string version over the list computes the same string. -/
def lcpChars : List Char → List Char → List Char
  | c :: cs, d :: ds => if c = d then c :: lcpChars cs ds else []
  | _, _ => []

/-- `os.path.commonprefix` on the sorted directory names. -/
def commonPfx : List String → String
  | [] => ""
  | x :: xs => xs.foldl (fun a b => String.mk (lcpChars a.toList b.toList)) x

/-- Python `s[n:]`: drop the first `n` codepoints, modelled on the
codepoint list underlying the string. -/
def strDrop (s : String) (n : Nat) : String := String.mk (s.toList.drop n)

/-- `extract_sample_info` (`utils.py` lines 15–34), taking the natural-sorted
list of qualifying directory names as input: the common prefix of all names,
and for each name the suffix after that prefix as its sample identifier. -/
def extract_sample_info (dirs_sorted : List String) : List String × String :=
  let pfx := commonPfx dirs_sorted
  (dirs_sorted.map (fun f => strDrop f pfx.length), pfx)

/-- The sample directory, `f"{common_prefix}{sample_i}"` (`utils.py` line 38). -/
def report_dir (pfx sample_i : String) : String := pfx ++ sample_i

/-- The report file name, `f"sample{sample_i}.{sample_i}.report.json"`
(`utils.py` line 40). -/
def report_name (sample_i : String) : String :=
  "sample" ++ sample_i ++ "." ++ sample_i ++ ".report.json"

/-- `os.path.join(sample_folder, report_name)` (`utils.py` line 41). -/
def report_path (pfx sample_i : String) : String :=
  report_dir pfx sample_i ++ "/" ++ report_name sample_i

/-- The filesystem, abstracted: maps a path to `none` (no such file),
`some none` (a file whose contents are not valid JSON) or `some (some v)`
(a file parsing to `v`). -/
def FileSys : Type := String → Option (Option JVal)

/-- `load_json_report` (`utils.py` lines 36–54): build the report path and
parse the file; `FileNotFoundError`, `JSONDecodeError` and any other failure
are each caught, logged, and turned into `None`. -/
def load_json_report (fs : FileSys) (sample_i pfx : String) : Option JVal :=
  match fs (report_path pfx sample_i) with
  | none => none
  | some none => none
  | some (some v) => some v

/-- `process_microorganisms` (`utils.py` lines 60–96): load, then extract. -/
def process_microorganisms (fs : FileSys) (sample_i pfx : String) :
    Option (List MicroorganismRecord) :=
  match load_json_report fs sample_i pfx with
  | none => none
  | some report => processReportMO sample_i report

/-- `process_amr_markers` (`utils.py` lines 98–132): load, then extract. -/
def process_amr_markers (fs : FileSys) (sample_i pfx : String) :
    Option (List AmrMarkerRecord) :=
  match load_json_report fs sample_i pfx with
  | none => none
  | some report => processReportAMR sample_i report

/-! ## Aggregation and relative abundance (`main.py`) -/

/-- Unique values of a list in order of first appearance
(`pandas.Series.unique`). -/
def uniqueInOrder (l : List String) : List String :=
  l.foldl (fun acc s => if s ∈ acc then acc else acc ++ [s]) []

/-- The sum of the `alignedReadCount` column over all of one sample's rows
(present or not), the group sum computed by
`final_mo_df.groupby('Sample')['alignedReadCount'].sum()` (`main.py` line 194).
Non-numeric counts are treated as 0 here; the theorems using this assume all
counts numeric, which is the only case in which pandas' group sum is defined. -/
def sampleTotal (records : List MicroorganismRecord) (s : String) : ℚ :=
  ((records.filter (fun r => r.sample == s)).map
    (fun r => (jvalToNum r.alignedReadCount).getD 0)).sum

/-- `final_mo_df.groupby('Sample')['alignedReadCount'].sum().to_dict()`
(`main.py` line 194), as an association list from sample label to group sum.
(pandas sorts the group keys; the dict is only ever read through `.get`, so
first-appearance order is an equivalent model.) -/
def total_reads_dict (records : List MicroorganismRecord) : List (String × ℚ) :=
  (uniqueInOrder (records.map (fun r => r.sample))).map
    (fun s => (s, sampleTotal records s))

/-- One row of the per-sample abundance frame built in
`plot_relative_abundance`: the selected columns plus the computed
`relativeAbundance(%)` column (`main.py` lines 99–103). -/
structure AbundanceEntry where
  sample : String
  name : JVal
  alignedReadCount : ℚ
  relativeAbundance : ℚ

/-- The comparison underlying `sort_values('relativeAbundance(%)')`. -/
def abundanceLE (a b : AbundanceEntry) : Prop :=
  a.relativeAbundance ≤ b.relativeAbundance

instance : DecidableRel abundanceLE := fun a b =>
  inferInstanceAs (Decidable (a.relativeAbundance ≤ b.relativeAbundance))

instance : IsTotal AbundanceEntry abundanceLE :=
  ⟨fun a b => le_total a.relativeAbundance b.relativeAbundance⟩

instance : IsTrans AbundanceEntry abundanceLE :=
  ⟨fun _ _ _ hab hbc => le_trans hab hbc⟩

/-- `sort_values('relativeAbundance(%)', ascending=False)` (`main.py` line
104): pandas' `nargsort` computes an ascending argsort of the key column and
then reverses the whole indexer, and NumPy's sort is insertion sort (stable)
on the small per-sample frames, so the result is a stable ascending sort
followed by a reversal. -/
def sortDescByAbundance (l : List AbundanceEntry) : List AbundanceEntry :=
  (List.insertionSort abundanceLE l).reverse

/-- `plot_relative_abundance` (`main.py` lines 90–126), the data it computes
per plotted sample: restrict to rows with `predictedPresent` truthy, take the
samples having such rows in order of first appearance, and for each one look
up its total; if the total is missing or falsy or not `> 0`, skip the sample
with a warning; otherwise divide the raw `alignedReadCount` column by the
total, times 100, and sort descending.  A `TypeError` from the division
(non-numeric count) is caught by the per-sample `except` and skips the
sample. -/
def plot_relative_abundance (records : List MicroorganismRecord)
    (totals : List (String × ℚ)) : List (String × List AbundanceEntry) :=
  let df_present_mo := records.filter (fun r => truthy r.predictedPresent)
  let sample_with_present_mo := uniqueInOrder (df_present_mo.map (fun r => r.sample))
  sample_with_present_mo.filterMap (fun sample_name =>
    let rows := df_present_mo.filter (fun r => r.sample == sample_name)
    match List.lookup sample_name totals with
    | some total_reads =>
      -- `if total_reads and total_reads > 0:` — falsy-or-nonpositive skips
      if total_reads ≠ 0 ∧ 0 < total_reads then
        match mapOrNone (fun r =>
            (jvalToNum r.alignedReadCount).map (fun c =>
              ({ sample := r.sample
                 name := r.name
                 alignedReadCount := c
                 relativeAbundance := c / total_reads * 100 } : AbundanceEntry)))
            rows with
        | some es => some (sample_name, sortDescByAbundance es)
        | none => none
      else
        none
    | none => none)

/-- The samples for which `plot_relative_abundance` takes its `else` branch
and logs "Skipping relative abundance plot … Total reads not found or zero."
(`main.py` lines 120–121). -/
def plot_relative_abundance_warned (records : List MicroorganismRecord)
    (totals : List (String × ℚ)) : List String :=
  let df_present_mo := records.filter (fun r => truthy r.predictedPresent)
  (uniqueInOrder (df_present_mo.map (fun r => r.sample))).filter
    (fun sample_name =>
      match List.lookup sample_name totals with
      | some total_reads => !(decide (total_reads ≠ 0 ∧ 0 < total_reads))
      | none => true)

/-! ## The driver (`main.py` lines 153–224) -/

/-- The success message printed at `main.py` line 220. -/
def success_message : String :=
  "✅ Success! Results saved to 'Results'. Errors logged to 'processing_errors.log'."

/-- The fatal-error message printed at `main.py` line 224. -/
def failure_message : String :=
  "❌ A fatal error occurred. Check 'processing_errors.log' for details."

/-- `all_mo_tables` accumulated by the per-sample loop (`main.py` lines
164–179): one table per sample whose processing returned a frame. -/
def all_mo_tables (fs : FileSys) (pfx : String) (names : List String) :
    List (List MicroorganismRecord) :=
  names.filterMap (fun i => process_microorganisms fs i pfx)

/-- `all_amr_tables` accumulated by the per-sample loop. -/
def all_amr_tables (fs : FileSys) (pfx : String) (names : List String) :
    List (List AmrMarkerRecord) :=
  names.filterMap (fun i => process_amr_markers fs i pfx)

/-- The externally observable outcome of one run of `main`: which table
files were exported, and what (if anything) was printed to the console. -/
structure MainResult where
  tableExports : List String
  printed : Option String
  deriving Repr, DecidableEq

/-- The control flow of `main` (`main.py` lines 153–224) up to table export:
no samples → warn and return (nothing printed, nothing exported); both table
lists empty → `logger.error` and plain `return` (nothing printed, nothing
exported, normal exit status); exactly one list empty → `pd.concat([])`
raises `ValueError`, caught by the top-level `except`, which prints the
fatal-error message; otherwise both tables are exported and the success
message is printed. -/
def main_run (fs : FileSys) (dirs_sorted : List String) : MainResult :=
  let info := extract_sample_info dirs_sorted
  let sample_names := info.1
  let pfx := info.2
  if sample_names.isEmpty then
    { tableExports := [], printed := none }
  else
    let mo := all_mo_tables fs pfx sample_names
    let amr := all_amr_tables fs pfx sample_names
    if mo.isEmpty ∧ amr.isEmpty then
      { tableExports := [], printed := none }
    else if mo.isEmpty ∨ amr.isEmpty then
      { tableExports := [], printed := some failure_message }
    else
      { tableExports := ["Microorganisms_table.xlsx", "amrMarkers_table.xlsx"]
        printed := some success_message }

/-! ## Concrete inputs used by counterexamples and witnesses -/

/-- A microorganism entry with a given name, 3 aligned reads and
`predictedPresent = true`. -/
def orgC7 (nm : String) : JVal :=
  .obj [("name", .str nm), ("alignedReadCount", .num 3),
        ("explifyInterpretation", .obj [("predictedPresent", .bool true)])]

/-- A report with two present organisms `A`, `B` with equal read counts. -/
def reportC7 : JVal :=
  .obj [("targetReport", .obj [("microorganisms", .arr [orgC7 "A", orgC7 "B"])])]

/-- The extracted records of `reportC7`, A before B. -/
def recsC7 : List MicroorganismRecord := (processReportMO "X" reportC7).getD []

/-- An AMR marker entry with no `associatedMicroorganisms` key at all. -/
def amrGood : JVal := .obj [("name", .str "geneX")]

/-- An AMR marker entry whose `associatedMicroorganisms.all` list is present
but empty. -/
def amrBad : JVal :=
  .obj [("name", .str "geneY"),
        ("associatedMicroorganisms", .obj [("all", .arr [])])]

/-- A report with one well-formed AMR marker and one with an empty
associated list. -/
def reportC4 : JVal :=
  .obj [("targetReport", .obj [("amrMarkers", .arr [amrGood, amrBad])])]

/-- A filesystem serving `reportC4` for sample `7` under prefix `pfx`. -/
def fsC4 : FileSys :=
  fun p => if p = report_path "pfx" "7" then some (some reportC4) else none

/-- A well-formed microorganism entry. -/
def orgGood : JVal := .obj [("name", .str "okOrg"), ("alignedReadCount", .num 9)]

/-- A microorganism entry whose `ani` key is present with value `null`. -/
def orgBadAni : JVal := .obj [("name", .str "badOrg"), ("ani", .null)]

/-- A report containing a well-formed entry and one with a null `ani`. -/
def reportC9 : JVal :=
  .obj [("targetReport", .obj [("microorganisms", .arr [orgGood, orgBadAni])])]

/-- A filesystem serving `reportC9` for sample `2` under prefix `p`. -/
def fsC9 : FileSys :=
  fun p => if p = report_path "p" "2" then some (some reportC9) else none

/-- An aggregate-table row: present organism, 80 aligned reads. -/
def recC2a : MicroorganismRecord :=
  { sample := "sampleZ", name := .str "orgA", alignedReadCount := .num 80
    ani := 0, rpkm := 0, className := .null, phenotypicGroup := .null
    predictedPresent := .bool true, presence := .bool true }

/-- An aggregate-table row: non-present organism, 20 aligned reads, same
sample. -/
def recC2b : MicroorganismRecord :=
  { sample := "sampleZ", name := .str "orgB", alignedReadCount := .num 20
    ani := 0, rpkm := 0, className := .null, phenotypicGroup := .null
    predictedPresent := .bool false, presence := .bool true }

/-- A two-row aggregate table: one present and one non-present organism in
the same sample, totalling 100 aligned reads. -/
def recsC2 : List MicroorganismRecord := [recC2a, recC2b]

/-- The abundance entry `plot_relative_abundance` computes for `recC2a`:
80 of 100 reads, so 80%. -/
def entC2 : AbundanceEntry :=
  { sample := "sampleZ", name := .str "orgA", alignedReadCount := 80
    relativeAbundance := 80 }

/-- A single present record used by the zero-total witness. -/
def recC6 : MicroorganismRecord :=
  { sample := "sampleW", name := .str "orgW", alignedReadCount := .num 4
    ani := 0, rpkm := 0, className := .null, phenotypicGroup := .null
    predictedPresent := .bool true, presence := .bool true }

/-- A report with one microorganism and one AMR marker, used by the
label-consistency witness. -/
def reportC5 : JVal :=
  .obj [("targetReport", .obj
    [("microorganisms", .arr [.obj [("name", .str "m1")]]),
     ("amrMarkers", .arr [.obj [("name", .str "g1")]])])]

/-- A filesystem serving `reportC5` for sample `01` under prefix `run_`. -/
def fsC5 : FileSys :=
  fun p => if p = report_path "run_" "01" then some (some reportC5) else none

/-- The abundance entry computed for organism `A` of `reportC7`:
3 of 6 reads, 50%. -/
def entC7A : AbundanceEntry :=
  { sample := "sampleX", name := .str "A", alignedReadCount := 3
    relativeAbundance := 50 }

/-- The abundance entry computed for organism `B` of `reportC7`. -/
def entC7B : AbundanceEntry :=
  { sample := "sampleX", name := .str "B", alignedReadCount := 3
    relativeAbundance := 50 }

/-- The record extracted from `amrGood` for sample `7`: every field
defaulted, the associated microorganism null. -/
def recC4 : AmrMarkerRecord :=
  { sampleID := "sample7", geneName := .str "geneX", className := .null
    geneFamily := .null, coverage := 0, medianDepth := .null
    associatedMicroorganisms := .null, predictedPresent := .bool false }

/-- The record extracted from `{"alignedReadCount": 6}` for sample `1`:
all other fields defaulted, presence true because 6 > 5. -/
def recC1 : MicroorganismRecord :=
  { sample := "sample1", name := .null, alignedReadCount := .num 6
    ani := 0, rpkm := 0, className := .null, phenotypicGroup := .null
    predictedPresent := .bool false, presence := .bool true }

unseal Rat.add Rat.mul Rat.inv Rat.sub

/-! ## Helper lemmas -/

theorem except_bind_ok {α β : Type} (x : Except String α) (f : α → Except String β)
    (b : β) : (x >>= f) = .ok b ↔ ∃ a, x = .ok a ∧ f a = .ok b := by
  cases x <;> simp [Bind.bind, Except.bind]

theorem string_data_append (a b : String) : (a ++ b).data = a.data ++ b.data := by
  cases a; cases b; rfl

theorem sample_label_ne_empty (i : String) : "sample" ++ i ≠ "" := by
  intro h
  have h2 := congrArg String.data h
  rw [string_data_append,
    show ("sample" : String).data = ['s', 'a', 'm', 'p', 'l', 'e'] from rfl] at h2
  simp at h2

theorem sample_label_inj (i j : String) (h : "sample" ++ i = "sample" ++ j) :
    i = j := by
  have h2 := congrArg String.data h
  rw [string_data_append, string_data_append] at h2
  have h3 := List.append_cancel_left h2
  cases i; cases j; exact congrArg String.mk h3

theorem mapOrErr_mem {α β : Type} (f : α → Except String β) :
    ∀ {l : List α} {ys : List β}, mapOrErr f l = .ok ys →
      ∀ y ∈ ys, ∃ x ∈ l, f x = .ok y := by
  intro l
  induction l with
  | nil =>
    intro ys h y hy
    simp only [mapOrErr] at h
    cases h
    simp at hy
  | cons x xs ih =>
    intro ys h y hy
    simp only [mapOrErr] at h
    cases hfx : f x with
    | error e => rw [hfx] at h; exact absurd h (by simp)
    | ok y0 =>
      cases hrest : mapOrErr f xs with
      | error e => rw [hfx, hrest] at h; exact absurd h (by simp)
      | ok ys0 =>
        rw [hfx, hrest] at h
        cases h
        rcases List.mem_cons.mp hy with hy | hy
        · exact ⟨x, List.mem_cons_self x xs, hy ▸ hfx⟩
        · obtain ⟨x', hx', hfx'⟩ := ih hrest y hy
          exact ⟨x', List.mem_cons_of_mem x hx', hfx'⟩

theorem mapOrErr_ok_forall {α β : Type} (f : α → Except String β) :
    ∀ {l : List α} {ys : List β}, mapOrErr f l = .ok ys →
      ∀ x ∈ l, ∃ y, f x = .ok y := by
  intro l
  induction l with
  | nil => intro ys _ x hx; simp at hx
  | cons a as ih =>
    intro ys h x hx
    simp only [mapOrErr] at h
    cases hfa : f a with
    | error e => rw [hfa] at h; exact absurd h (by simp)
    | ok y0 =>
      cases hrest : mapOrErr f as with
      | error e => rw [hfa, hrest] at h; exact absurd h (by simp)
      | ok ys0 =>
        rcases List.mem_cons.mp hx with hx | hx
        · exact ⟨y0, hx ▸ hfa⟩
        · exact ih hrest x hx

theorem mapOrNone_mem {α β : Type} (f : α → Option β) :
    ∀ {l : List α} {ys : List β}, mapOrNone f l = some ys →
      ∀ y ∈ ys, ∃ x ∈ l, f x = some y := by
  intro l
  induction l with
  | nil =>
    intro ys h y hy
    simp only [mapOrNone] at h
    cases h
    simp at hy
  | cons x xs ih =>
    intro ys h y hy
    simp only [mapOrNone] at h
    cases hfx : f x with
    | none => rw [hfx] at h; exact absurd h (by simp)
    | some y0 =>
      cases hrest : mapOrNone f xs with
      | none => rw [hfx, hrest] at h; exact absurd h (by simp)
      | some ys0 =>
        rw [hfx, hrest] at h
        cases h
        rcases List.mem_cons.mp hy with hy | hy
        · exact ⟨x, List.mem_cons_self x xs, hy ▸ hfx⟩
        · obtain ⟨x', hx', hfx'⟩ := ih hrest y hy
          exact ⟨x', List.mem_cons_of_mem x hx', hfx'⟩

theorem uniqueInOrder_aux (l : List String) (acc : List String) (s : String) :
    s ∈ l.foldl (fun acc s => if s ∈ acc then acc else acc ++ [s]) acc ↔
      s ∈ acc ∨ s ∈ l := by
  induction l generalizing acc with
  | nil => simp
  | cons x xs ih =>
    simp only [List.foldl_cons]
    by_cases hx : x ∈ acc
    · rw [if_pos hx, ih]
      constructor
      · rintro (h | h)
        · exact Or.inl h
        · exact Or.inr (List.mem_cons_of_mem x h)
      · rintro (h | h)
        · exact Or.inl h
        · rcases List.mem_cons.mp h with h | h
          · exact Or.inl (h ▸ hx)
          · exact Or.inr h
    · rw [if_neg hx, ih]
      simp only [List.mem_append, List.mem_singleton, List.mem_cons]
      tauto

theorem uniqueInOrder_mem (l : List String) (s : String) :
    s ∈ uniqueInOrder l ↔ s ∈ l := by
  unfold uniqueInOrder
  rw [uniqueInOrder_aux]
  simp

theorem lookup_map_pair (f : String → ℚ) :
    ∀ (l : List String) (s : String) (v : ℚ),
      List.lookup s (l.map (fun x => (x, f x))) = some v → v = f s := by
  intro l
  induction l with
  | nil => intro s v h; simp [List.lookup] at h
  | cons x xs ih =>
    intro s v h
    simp only [List.map_cons, List.lookup] at h
    cases hx : (s == x) with
    | true =>
      rw [hx] at h
      cases h
      exact (beq_iff_eq.mp hx ▸ rfl)
    | false =>
      rw [hx] at h
      exact ih s v h

theorem processItemMO_ok_elim {i : String} {item : JVal} {r : MicroorganismRecord}
    (h : processItemMO i item = .ok r) :
    r.sample = "sample" ++ i ∧
    ∃ pp ac gt, getPredictedPresent item = .ok pp ∧
      getD item "alignedReadCount" (.num 0) = .ok ac ∧
      jgt5 ac = .ok gt ∧
      r.predictedPresent = pp ∧ r.alignedReadCount = ac ∧
      r.presence = (if truthy pp then pp else .bool gt) := by
  simp only [processItemMO, except_bind_ok] at h
  obtain ⟨ani, _, rpkm, _, ac, hac, pp, hpp, nm, _, aniR, _, rpkmR, _,
    cls, _, phen, _, gt, hgt, hr⟩ := h
  cases hr
  exact ⟨rfl, pp, ac, gt, hpp, hac, hgt, rfl, rfl, rfl⟩

theorem processItemAMR_ok_elim {i : String} {item : JVal} {r : AmrMarkerRecord}
    (h : processItemAMR i item = .ok r) :
    r.sampleID = "sample" ++ i ∧
    ∃ assoc allList, getD item "associatedMicroorganisms" (.obj []) = .ok assoc ∧
      getD assoc "all" (.arr [.null]) = .ok allList ∧
      jindex0 allList = .ok r.associatedMicroorganisms := by
  simp only [processItemAMR, except_bind_ok] at h
  obtain ⟨cov, _, assoc, hassoc, allList, hall, am, ham, nm, _, cls, _,
    gf, _, covR, _, md, _, pp, _, hr⟩ := h
  cases hr
  exact ⟨rfl, assoc, allList, hassoc, hall, ham⟩

theorem processReportMO_elim {i : String} {report : JVal}
    {recs : List MicroorganismRecord}
    (h : processReportMO i report = some recs) :
    ∃ items : List JVal, mapOrErr (processItemMO i) items = .ok recs := by
  unfold processReportMO at h
  simp only [Bind.bind, Except.bind, pure, Except.pure] at h
  split at h
  case _ o hres =>
    subst h
    split at hres <;> try (exact absurd hres (by simp))
    split at hres <;> try (exact absurd hres (by simp))
    split at hres <;> try (exact absurd hres (by simp))
    split at hres <;> try (exact absurd hres (by simp))
    split at hres
    · exact absurd hres (by simp)
    · injection hres with h2
      injection h2 with h3
      subst h3
      exact ⟨_, by assumption⟩
  case _ e hres =>
    exact absurd h (by simp)

theorem processReportAMR_elim {i : String} {report : JVal}
    {recs : List AmrMarkerRecord}
    (h : processReportAMR i report = some recs) :
    ∃ items : List JVal, mapOrErr (processItemAMR i) items = .ok recs := by
  unfold processReportAMR at h
  simp only [Bind.bind, Except.bind, pure, Except.pure] at h
  split at h
  case _ o hres =>
    subst h
    split at hres <;> try (exact absurd hres (by simp))
    split at hres <;> try (exact absurd hres (by simp))
    split at hres <;> try (exact absurd hres (by simp))
    split at hres <;> try (exact absurd hres (by simp))
    split at hres
    · exact absurd hres (by simp)
    · injection hres with h2
      injection h2 with h3
      subst h3
      exact ⟨_, by assumption⟩
  case _ e hres =>
    exact absurd h (by simp)

theorem plot_mem_elim {records : List MicroorganismRecord}
    {totals : List (String × ℚ)} {p : String × List AbundanceEntry}
    (hp : p ∈ plot_relative_abundance records totals) :
    ∃ t es,
      List.lookup p.1 totals = some t ∧ t ≠ 0 ∧ 0 < t ∧
      mapOrNone (fun r =>
          (jvalToNum r.alignedReadCount).map (fun c =>
            ({ sample := r.sample, name := r.name, alignedReadCount := c,
               relativeAbundance := c / t * 100 } : AbundanceEntry)))
        ((records.filter (fun r => truthy r.predictedPresent)).filter
          (fun r => r.sample == p.1)) = some es ∧
      p.2 = sortDescByAbundance es ∧
      p.1 ∈ uniqueInOrder ((records.filter (fun r => truthy r.predictedPresent)).map
        (fun r => r.sample)) := by
  unfold plot_relative_abundance at hp
  obtain ⟨s, hs, hg⟩ := List.mem_filterMap.mp hp
  dsimp only at hg
  split at hg
  case _ t hlook =>
    split at hg
    case isTrue hcond =>
      split at hg
      case _ es hmap =>
        injection hg with hg2
        subst hg2
        exact ⟨t, es, hlook, hcond.1, hcond.2, hmap, rfl, hs⟩
      case _ hmap => exact absurd hg (by simp)
    case isFalse hcond => exact absurd hg (by simp)
  case _ hlook => exact absurd hg (by simp)

/-! ## The claims -/

/-- **C1** For every microorganism entry, the extracted record's derived
presence flag equals `predictedPresent OR (alignedReadCount > 5)`, both
fields defaulting (to false and 0) when absent; in particular
`alignedReadCount = 6` with `predictedPresent = false` yields presence true,
`alignedReadCount = 5` yields false, and with `alignedReadCount` absent the
presence equals `predictedPresent` alone. -/
theorem presence_flag_or_threshold :
    (∀ (i : String) (item : JVal) (rec : MicroorganismRecord) (c : ℚ) (b : Bool),
      getD item "alignedReadCount" (.num 0) = .ok (.num c) →
      getPredictedPresent item = .ok (.bool b) →
      processItemMO i item = .ok rec →
      rec.presence = .bool (b || decide (5 < c))) ∧
    (processItemMO "1" (.obj [("alignedReadCount", .num 6)])).map
      (fun r => r.presence) = .ok (.bool true) ∧
    (processItemMO "1" (.obj [("alignedReadCount", .num 5)])).map
      (fun r => r.presence) = .ok (.bool false) ∧
    (processItemMO "1" (.obj [("explifyInterpretation",
        .obj [("predictedPresent", .bool true)])])).map
      (fun r => r.presence) = .ok (.bool true) ∧
    (processItemMO "1" (.obj [])).map
      (fun r => r.presence) = .ok (.bool false) := by
  refine ⟨?_, rfl, rfl, rfl, rfl⟩
  intro i item rec c b hc hb hrec
  obtain ⟨_, pp, ac, gt, hpp, hac, hgt, _, _, hpres⟩ := processItemMO_ok_elim hrec
  rw [hb] at hpp
  injection hpp with hpp
  subst hpp
  rw [hc] at hac
  injection hac with hac
  subst hac
  simp only [jgt5] at hgt
  injection hgt with hgt
  subst hgt
  rw [hpres]
  cases b <;> simp [truthy]

/-- Witness for C1: instantiating the general statement at the concrete item
`{"alignedReadCount": 6}` (predicted-present absent, so false) gives
presence true. -/
theorem presence_flag_or_threshold_witness :
    processItemMO "1" (JVal.obj [("alignedReadCount", JVal.num 6)]) = .ok recC1 ∧
    recC1.presence = .bool true := by
  constructor
  · rfl
  · have h := presence_flag_or_threshold.1 "1"
      (JVal.obj [("alignedReadCount", JVal.num 6)]) recC1 6 false rfl rfl rfl
    rw [h, show (false || decide ((5:ℚ) < 6)) = true by decide]

/-- **C5** Every microorganism and AMR record of a processed sample carries
the non-empty sample label `"sample" ++ identifier`, which determines the
identifier (and hence the sample directory) uniquely, and the loader reads
the report from the directory named `prefix ++ identifier`. -/
theorem sample_label_consistency (fs : FileSys) (pfx i : String) :
    (∀ recs, process_microorganisms fs i pfx = some recs →
      ∀ r ∈ recs, r.sample = "sample" ++ i ∧ r.sample ≠ "") ∧
    (∀ recs, process_amr_markers fs i pfx = some recs →
      ∀ r ∈ recs, r.sampleID = "sample" ++ i ∧ r.sampleID ≠ "") ∧
    (∀ j, "sample" ++ i = "sample" ++ j → i = j) ∧
    report_path pfx i = (pfx ++ i) ++ "/" ++ report_name i := by
  refine ⟨?_, ?_, fun j => sample_label_inj i j, rfl⟩
  · intro recs hrecs r hr
    unfold process_microorganisms at hrecs
    cases hload : load_json_report fs i pfx with
    | none => rw [hload] at hrecs; simp at hrecs
    | some report =>
      rw [hload] at hrecs
      obtain ⟨items, hmap⟩ := processReportMO_elim hrecs
      obtain ⟨x, _, hx⟩ := mapOrErr_mem _ hmap r hr
      have hsamp := (processItemMO_ok_elim hx).1
      exact ⟨hsamp, hsamp ▸ sample_label_ne_empty i⟩
  · intro recs hrecs r hr
    unfold process_amr_markers at hrecs
    cases hload : load_json_report fs i pfx with
    | none => rw [hload] at hrecs; simp at hrecs
    | some report =>
      rw [hload] at hrecs
      obtain ⟨items, hmap⟩ := processReportAMR_elim hrecs
      obtain ⟨x, _, hx⟩ := mapOrErr_mem _ hmap r hr
      have hsamp := (processItemAMR_ok_elim hx).1
      exact ⟨hsamp, hsamp ▸ sample_label_ne_empty i⟩

/-- Witness for C5: the concrete sample `01` under prefix `run_` yields
records all labelled `sample01`, which is non-empty. -/
theorem sample_label_consistency_witness :
    ∃ recs, process_microorganisms fsC5 "01" "run_" = some recs ∧
      ∀ r ∈ recs, r.sample = "sample" ++ "01" ∧ r.sample ≠ "" :=
  ⟨_, rfl, (sample_label_consistency fsC5 "run_" "01").1 _ rfl⟩

/-- **C10** With exactly one sample directory, the common prefix is the whole
directory name and the identifier list is a single empty string; the loader
then looks for the fixed file name `sample..report.json` inside that
directory, whatever the directory's actual name is. -/
theorem single_directory_discovery (d : String) :
    extract_sample_info [d] = ([""], d) ∧
    report_name "" = "sample..report.json" ∧
    report_dir d "" = d ∧
    report_path d "" = d ++ "/" ++ "sample..report.json" := by
  have hdrop : strDrop d d.length = "" := by
    unfold strDrop
    rw [show d.toList = d.data from rfl, show d.length = d.data.length from rfl,
      List.drop_length]
  have happ : d ++ "" = d := by simp
  refine ⟨?_, rfl, happ, ?_⟩
  · show ([strDrop d (commonPfx [d]).length], commonPfx [d]) = ([""], d)
    show ([strDrop d d.length], d) = ([""], d)
    rw [hdrop]
  · show (d ++ "") ++ "/" ++ report_name "" = d ++ "/" ++ "sample..report.json"
    rw [happ]
    rfl

/-- **C9** Field defaulting applies only to absent keys: a microorganism
entry whose `ani` key is present with value `null` makes `round` raise, the
exception is caught at the sample boundary, and the whole sample contributes
zero microorganism records, even though its other entry is well-formed (an
absent `ani` just defaults to 0). -/
theorem null_field_fails_whole_sample :
    (processItemMO "2" orgBadAni).map (fun r => r.ani) =
      .error "TypeError: round on a non-number" ∧
    (processItemMO "2" orgGood).map (fun r => r.ani) = .ok 0 ∧
    processReportMO "2" reportC9 = none ∧
    process_microorganisms fsC9 "2" "p" = none :=
  ⟨rfl, rfl, rfl, rfl⟩

/-- **C8** A sample whose report file is missing or whose JSON is unparsable
contributes `None` to both extractions, hence zero records to both aggregate
table lists, and the remaining samples' contributions are unchanged. -/
theorem failed_report_contributes_nothing (fs : FileSys) (pfx i : String)
    (h : fs (report_path pfx i) = none ∨ fs (report_path pfx i) = some none) :
    process_microorganisms fs i pfx = none ∧
    process_amr_markers fs i pfx = none ∧
    ∀ ns1 ns2 : List String,
      all_mo_tables fs pfx (ns1 ++ i :: ns2) = all_mo_tables fs pfx (ns1 ++ ns2) ∧
      all_amr_tables fs pfx (ns1 ++ i :: ns2) = all_amr_tables fs pfx (ns1 ++ ns2) := by
  have hload : load_json_report fs i pfx = none := by
    unfold load_json_report
    rcases h with h | h <;> rw [h]
  have hmo : process_microorganisms fs i pfx = none := by
    unfold process_microorganisms
    rw [hload]
  have hamr : process_amr_markers fs i pfx = none := by
    unfold process_amr_markers
    rw [hload]
  refine ⟨hmo, hamr, ?_⟩
  intro ns1 ns2
  constructor <;>
    simp [all_mo_tables, all_amr_tables, List.filterMap_append, List.filterMap_cons,
      hmo, hamr]

/-- Witness for C8: a filesystem with no files at all, sample `2` among
samples `1`, `3` under prefix `batch`. -/
theorem failed_report_contributes_nothing_witness :
    process_microorganisms (fun _ => none) "2" "batch" = none ∧
    process_amr_markers (fun _ => none) "2" "batch" = none ∧
    all_mo_tables (fun _ => none) "batch" (["1"] ++ "2" :: ["3"]) =
      all_mo_tables (fun _ => none) "batch" (["1"] ++ ["3"]) := by
  have h := failed_report_contributes_nothing (fun _ => none) "batch" "2" (Or.inl rfl)
  exact ⟨h.1, h.2.1, (h.2.2 ["1"] ["3"]).1⟩

/-- C3 counterexample: with two sample directories and no report files at
all, both aggregate table lists are empty, and the run then exports no
tables and prints nothing at all — in particular it does not report any
user-visible failure message (the `return` at `main.py` line 183 bypasses
both the success print and the fatal-error print). -/
theorem no_data_abort_counterexample :
    extract_sample_info ["sampleA", "sampleB"] = (["A", "B"], "sample") ∧
    all_mo_tables (fun _ => none) "sample" ["A", "B"] = [] ∧
    all_amr_tables (fun _ => none) "sample" ["A", "B"] = [] ∧
    main_run (fun _ => none) ["sampleA", "sampleB"] =
      { tableExports := [], printed := none } :=
  ⟨rfl, rfl, rfl, rfl⟩

/-- **C3 (amended)** If after processing every sample both aggregate table
lists are empty, the run aborts before exporting: it produces no table
exports and logs an error, but it prints neither the success nor the failure
message (it returns silently with a normal exit status). -/
theorem no_data_abort_amended (fs : FileSys) (dirs : List String)
    (hne : ((extract_sample_info dirs).1).isEmpty = false)
    (hmo : all_mo_tables fs (extract_sample_info dirs).2
      (extract_sample_info dirs).1 = [])
    (hamr : all_amr_tables fs (extract_sample_info dirs).2
      (extract_sample_info dirs).1 = []) :
    main_run fs dirs = { tableExports := [], printed := none } := by
  simp [main_run, hne, hmo, hamr]

/-- Witness for C3 (amended): two sample directories, no files at all. -/
theorem no_data_abort_amended_witness :
    main_run (fun _ => none) ["s1", "s2"] =
      { tableExports := [], printed := none } :=
  no_data_abort_amended (fun _ => none) ["s1", "s2"] rfl rfl rfl

/-- C4 counterexample: an AMR entry whose `associatedMicroorganisms.all`
list is present but empty raises `IndexError` (only a *missing* list gets
the `[None]` default), the exception is caught at the sample boundary, and
the whole sample — including its well-formed first marker — contributes zero
AMR records. -/
theorem amr_empty_assoc_list_counterexample :
    processItemAMR "7" amrBad = .error "IndexError: list index out of range" ∧
    (processItemAMR "7" amrGood).map (fun r => r.associatedMicroorganisms) =
      .ok .null ∧
    process_amr_markers fsC4 "7" "pfx" = none :=
  ⟨rfl, rfl, rfl⟩

/-- **C4 (amended)** When the associated-microorganisms list is *missing*
(either key absent), the record's associated-microorganism field is null and
extraction continues; but when the list is present and *empty*, the per-item
extraction raises `IndexError`, so the whole sample's AMR extraction fails
and no records of that sample survive. -/
theorem amr_assoc_first_amended :
    (∀ (i : String) (fields : List (String × JVal)) (rec : AmrMarkerRecord),
      (List.lookup "associatedMicroorganisms" fields = none ∨
       ∃ gs, List.lookup "associatedMicroorganisms" fields = some (.obj gs) ∧
         List.lookup "all" gs = none) →
      processItemAMR i (.obj fields) = .ok rec →
      rec.associatedMicroorganisms = .null) ∧
    (∀ (i : String) (fields gs : List (String × JVal)),
      List.lookup "associatedMicroorganisms" fields = some (.obj gs) →
      List.lookup "all" gs = some (.arr []) →
      ∃ msg, processItemAMR i (.obj fields) = .error msg) ∧
    (∀ (i : String) (items : List JVal) (item : JVal),
      item ∈ items → (∃ msg, processItemAMR i item = .error msg) →
      ∃ msg, mapOrErr (processItemAMR i) items = .error msg) := by
  refine ⟨?_, ?_, ?_⟩
  · intro i fields rec h hrec
    obtain ⟨_, assoc, allList, hassoc, hall, ham⟩ := processItemAMR_ok_elim hrec
    simp only [getD] at hassoc
    rcases h with h | ⟨gs, hg, hga⟩
    · rw [h] at hassoc
      injection hassoc with hassoc
      subst hassoc
      simp only [getD, List.lookup] at hall
      injection hall with hall
      subst hall
      simp only [jindex0] at ham
      injection ham with ham
      exact ham.symm
    · rw [hg] at hassoc
      simp only [Option.getD_some] at hassoc
      injection hassoc with hassoc
      subst hassoc
      simp only [getD] at hall
      rw [hga] at hall
      simp only [Option.getD_none] at hall
      injection hall with hall
      subst hall
      simp only [jindex0] at ham
      injection ham with ham
      exact ham.symm
  · intro i fields gs hg hga
    refine ⟨"IndexError: list index out of range", ?_⟩
    unfold processItemAMR
    simp only [Bind.bind, Except.bind, getD, hg, hga, Option.getD_some, jindex0]
  · intro i items item hmem herr
    obtain ⟨msg, herr⟩ := herr
    cases hmap : mapOrErr (processItemAMR i) items with
    | ok ys =>
      obtain ⟨y, hy⟩ := mapOrErr_ok_forall _ hmap item hmem
      rw [herr] at hy
      exact absurd hy (by simp)
    | error e => exact ⟨e, rfl⟩

/-- Witness for C4 (amended): the marker with no `associatedMicroorganisms`
key extracts with a null associated microorganism, while the marker with an
empty `all` list raises. -/
theorem amr_assoc_first_amended_witness :
    processItemAMR "7" amrGood = .ok recC4 ∧
    recC4.associatedMicroorganisms = .null ∧
    (∃ msg, processItemAMR "7" amrBad = .error msg) := by
  refine ⟨rfl, ?_, ?_⟩
  · exact amr_assoc_first_amended.1 "7" [("name", .str "geneX")] recC4
      (Or.inl rfl) rfl
  · exact amr_assoc_first_amended.2.1 "7"
      [("name", .str "geneY"), ("associatedMicroorganisms", .obj [("all", .arr [])])]
      [("all", .arr [])] rfl rfl

/-- C7 counterexample: two present organisms with equal read counts (A
before B in the report) get equal relative-abundance percentages, but the
output order is B then A — `sort_values(ascending=False)` reverses an
ascending sort, so ties do *not* preserve the original order. -/
theorem abundance_tie_order_counterexample :
    recsC7.map (fun r => r.name) = [.str "A", .str "B"] ∧
    plot_relative_abundance recsC7 (total_reads_dict recsC7) =
      [("sampleX", [entC7B, entC7A])] ∧
    entC7A.relativeAbundance = entC7B.relativeAbundance :=
  ⟨rfl, rfl, rfl⟩

/-- **C7 (amended)** Each plotted sample's relative-abundance results are
ordered descending by percentage; entries with equal percentages appear in
*reversed* original order (the sort is an ascending sort followed by a
reversal), not in their original order. -/
theorem abundance_sorted_descending (records : List MicroorganismRecord)
    (totals : List (String × ℚ)) (p : String × List AbundanceEntry)
    (hp : p ∈ plot_relative_abundance records totals) :
    p.2.Sorted (fun a b => b.relativeAbundance ≤ a.relativeAbundance) := by
  obtain ⟨t, es, _, _, _, _, hp2, _⟩ := plot_mem_elim hp
  rw [hp2]
  unfold sortDescByAbundance
  have h := List.sorted_insertionSort abundanceLE es
  exact (List.pairwise_reverse).mpr h

/-- Witness for C7 (amended): the concrete two-organism sample's output list
is sorted descending. -/
theorem abundance_sorted_descending_witness :
    ("sampleX", [entC7B, entC7A]) ∈
      plot_relative_abundance recsC7 (total_reads_dict recsC7) ∧
    List.Sorted (fun a b => b.relativeAbundance ≤ a.relativeAbundance)
      [entC7B, entC7A] := by
  have hmem : ("sampleX", [entC7B, entC7A]) ∈
      plot_relative_abundance recsC7 (total_reads_dict recsC7) := by
    rw [show plot_relative_abundance recsC7 (total_reads_dict recsC7) =
      [("sampleX", [entC7B, entC7A])] from rfl]
    exact List.mem_singleton_self _
  exact ⟨hmem,
    abundance_sorted_descending recsC7 (total_reads_dict recsC7) _ hmem⟩

/-- **C6** A sample whose total aligned read count is zero or missing from
the totals dict yields no output entries and is recorded among the warned
samples; every sample that does produce output has a strictly positive
looked-up total, so no division by zero is ever performed. -/
theorem zero_or_missing_total_skipped (records : List MicroorganismRecord)
    (totals : List (String × ℚ)) (s : String)
    (h : List.lookup s totals = none ∨ List.lookup s totals = some 0) :
    s ∉ (plot_relative_abundance records totals).map Prod.fst ∧
    (s ∈ uniqueInOrder ((records.filter (fun r => truthy r.predictedPresent)).map
        (fun r => r.sample)) →
      s ∈ plot_relative_abundance_warned records totals) ∧
    ∀ p ∈ plot_relative_abundance records totals,
      ∃ t, List.lookup p.1 totals = some t ∧ 0 < t := by
  refine ⟨?_, ?_, ?_⟩
  · intro hmem
    obtain ⟨p, hp, hfst⟩ := List.mem_map.mp hmem
    obtain ⟨t, es, hlook, ht0, htpos, _⟩ := plot_mem_elim hp
    rw [hfst] at hlook
    rcases h with h | h
    · rw [h] at hlook
      cases hlook
    · rw [h] at hlook
      injection hlook with hlook
      exact ht0 hlook.symm
  · intro hs
    unfold plot_relative_abundance_warned
    rw [List.mem_filter]
    refine ⟨hs, ?_⟩
    rcases h with h | h <;> simp [h]
  · intro p hp
    obtain ⟨t, _, hlook, _, htpos, _⟩ := plot_mem_elim hp
    exact ⟨t, hlook, htpos⟩

/-- Witness for C6: one present record for `sampleW` and an empty totals
dict — the sample produces nothing and is warned about. -/
theorem zero_or_missing_total_skipped_witness :
    "sampleW" ∉ (plot_relative_abundance [recC6] []).map Prod.fst ∧
    "sampleW" ∈ plot_relative_abundance_warned [recC6] [] := by
  have h := zero_or_missing_total_skipped [recC6] [] "sampleW" (Or.inl rfl)
  exact ⟨h.1, h.2.1 (by decide)⟩

/-- **C2** For every sample the abundance calculator outputs, the looked-up
per-sample total is the sum of the `alignedReadCount` values over *all* of
that sample's rows in the aggregate table (present and non-present alike),
and each output entry's relative abundance equals
`100 × raw aligned read count / that total`. -/
theorem relative_abundance_over_total_all_records
    (records : List MicroorganismRecord)
    (_hnum : ∀ r ∈ records, (jvalToNum r.alignedReadCount).isSome = true)
    (s : String) (es : List AbundanceEntry)
    (hmem : (s, es) ∈ plot_relative_abundance records (total_reads_dict records))
    (e : AbundanceEntry) (he : e ∈ es) :
    List.lookup s (total_reads_dict records) = some (sampleTotal records s) ∧
    sampleTotal records s =
      ((records.filter (fun r => r.sample == s)).map
        (fun r => (jvalToNum r.alignedReadCount).getD 0)).sum ∧
    e.relativeAbundance = 100 * e.alignedReadCount / sampleTotal records s := by
  obtain ⟨t, es0, hlook, ht0, htpos, hmap, hes, hsmem⟩ := plot_mem_elim hmem
  have hlook2 : List.lookup s ((uniqueInOrder (records.map (fun r => r.sample))).map
      (fun x => (x, sampleTotal records x))) = some t := hlook
  have hts : t = sampleTotal records s :=
    lookup_map_pair (sampleTotal records)
      (uniqueInOrder (records.map (fun r => r.sample))) s t hlook2
  refine ⟨hts ▸ hlook, rfl, ?_⟩
  have he0 : e ∈ es0 := by
    have : e ∈ sortDescByAbundance es0 := hes ▸ he
    unfold sortDescByAbundance at this
    exact (List.mem_insertionSort _).mp (List.mem_reverse.mp this)
  obtain ⟨r, hr, hfr⟩ := mapOrNone_mem _ hmap e he0
  obtain ⟨c, hc, hrec⟩ := Option.map_eq_some'.mp hfr
  subst hrec
  show c / t * 100 = 100 * c / sampleTotal records s
  rw [← hts, div_mul_eq_mul_div, mul_comm]

/-- Witness for C2: a two-row table (one present organism with 80 reads, one
non-present with 20) — the present organism's abundance is 80% of the
100-read total. -/
theorem relative_abundance_over_total_all_records_witness :
    List.lookup "sampleZ" (total_reads_dict recsC2) =
      some (sampleTotal recsC2 "sampleZ") ∧
    sampleTotal recsC2 "sampleZ" = 100 ∧
    entC2.relativeAbundance =
      100 * entC2.alignedReadCount / sampleTotal recsC2 "sampleZ" := by
  have hmem : ("sampleZ", [entC2]) ∈
      plot_relative_abundance recsC2 (total_reads_dict recsC2) := by
    rw [show plot_relative_abundance recsC2 (total_reads_dict recsC2) =
      [("sampleZ", [entC2])] from rfl]
    exact List.mem_singleton_self _
  have h := relative_abundance_over_total_all_records recsC2 (by decide) "sampleZ"
    [entC2] hmem entC2 (List.mem_singleton_self _)
  exact ⟨h.1, rfl, h.2.2⟩
